import Mathlib

/-!
Verification of the scene viewport panel of `src/editor/panels/scene.c`
(phosphor editor). The panel keeps a free-fly camera (position, yaw/pitch,
derived direction vector), an offscreen render target sized to the panel,
and presents the target in a UI window with a selection overlay.

Modelling conventions:
* Floating-point scalars that only undergo additions, multiplications by
  literals and comparisons (yaw, pitch, panel sizes, pointer deltas) are
  modelled as exact rationals; scalars that pass through trigonometric
  functions and square roots (camera vectors) as reals.
* SDL mouse deltas `xrel`/`yrel` are `Sint32`, modelled as integers.
* OpenGL object handles are irrelevant to the claims; instead the state
  records the dimensions last given to `glTexImage2D` for the scene
  texture and to `renderer_resize`.
* External globals and query results (`selected_entity`, `scene_open`,
  `SDL_GetMouseState`, `SDL_GetKeyboardState`, ImGui window size / focus /
  `igBegin` result) enter the modelled functions as parameters.
-/

/-- An `ImVec2` panel size, two float components modelled as rationals. -/
structure ImVec2 where
  x : ℚ
  y : ℚ
deriving DecidableEq

/-- A cglm `vec3` (three floats), modelled over the reals. -/
@[ext]
structure Vec3 where
  x : ℝ
  y : ℝ
  z : ℝ

/-- The SDL event types distinguished by `scene_processevent`. -/
inductive SDL_EventType
  | SDL_MOUSEMOTION
  | otherEvent
deriving DecidableEq

/-- The parts of an `SDL_Event` read by `scene_processevent`: the type tag
and the relative mouse motion `e->motion.xrel` / `e->motion.yrel`. -/
structure SDL_Event where
  type : SDL_EventType
  xrel : ℤ
  yrel : ℤ
deriving DecidableEq

/-- The movement keys read from `SDL_GetKeyboardState` in `scene_update`:
`SDL_SCANCODE_W/S/A/D`. -/
structure Keys where
  w : Bool
  s : Bool
  a : Bool
  d : Bool
deriving DecidableEq

/-- The file-scope mutable globals of `src/editor/panels/scene.c`.
`scene_tex_size` records the width/height last passed to `glTexImage2D`
for `scene_tex`; `renderer_size` the arguments of the last
`renderer_resize` call. -/
structure SceneState where
  scene_focused : Bool
  scene_size : ImVec2
  first_frame : Bool
  scene_tex_size : ImVec2
  renderer_size : ImVec2
  cam_pos : Vec3
  cam_dir : Vec3
  yaw : ℚ
  pitch : ℚ

/-- `const float cam_speed = 0.25;` -/
def cam_speed : ℝ := 0.25

/-- The C globals at program start: `scene_focused = false`,
`scene_size = {0, 0}`, `first_frame = true`, `cam_pos = {0.0, 3.0, 0.0}`,
`yaw = -90.0`, `pitch = 0.0`; `cam_dir` is zero-initialized static
storage, and no texture has been allocated yet. -/
noncomputable def initialSceneState : SceneState where
  scene_focused := false
  scene_size := ⟨0, 0⟩
  first_frame := true
  scene_tex_size := ⟨0, 0⟩
  renderer_size := ⟨0, 0⟩
  cam_pos := ⟨0, 3, 0⟩
  cam_dir := ⟨0, 0, 0⟩
  yaw := -90
  pitch := 0

/-- The guard of the mouse-look branch of `scene_processevent`:
`e->type == SDL_MOUSEMOTION && scene_focused && SDL_GetMouseState(0, 0) & SDL_BUTTON_LMASK`.
`lmask` is whether the left mouse button is reported held. -/
def mouselook_active (e : SDL_Event) (lmask : Bool) (st : SceneState) : Prop :=
  e.type = SDL_EventType.SDL_MOUSEMOTION ∧ st.scene_focused = true ∧ lmask = true

instance (e : SDL_Event) (lmask : Bool) (st : SceneState) :
    Decidable (mouselook_active e lmask st) :=
  inferInstanceAs (Decidable (_ ∧ _ ∧ _))

/-- `scene_processevent`: while focused with the left button held, a mouse
motion event accumulates `yaw += xrel * 0.1` and `pitch -= yrel * 0.1`;
afterwards pitch is clamped, `if (pitch > 89.0) pitch = 89.0;`
`if (pitch < -89.0) pitch = -89.0;`. -/
def scene_processevent (e : SDL_Event) (lmask : Bool) (st : SceneState) :
    SceneState :=
  let yaw1 := if mouselook_active e lmask st then
      st.yaw + (e.xrel : ℚ) * (1 / 10) else st.yaw
  let pitch1 := if mouselook_active e lmask st then
      st.pitch - (e.yrel : ℚ) * (1 / 10) else st.pitch
  let pitch2 := if pitch1 > 89 then (89 : ℚ) else pitch1
  let pitch3 := if pitch2 < -89 then (-89 : ℚ) else pitch2
  { st with yaw := yaw1, pitch := pitch3 }

/-- cglm `glm_rad(deg) = deg * GLM_PIf / 180.0f`, degrees to radians. -/
noncomputable def glm_rad (deg : ℝ) : ℝ := deg * Real.pi / 180

/-- cglm `glm_vec3_add`. -/
def glm_vec3_add (a b : Vec3) : Vec3 := ⟨a.x + b.x, a.y + b.y, a.z + b.z⟩

/-- cglm `glm_vec3_sub`. -/
def glm_vec3_sub (a b : Vec3) : Vec3 := ⟨a.x - b.x, a.y - b.y, a.z - b.z⟩

/-- cglm `glm_vec3_scale`. -/
def glm_vec3_scale (v : Vec3) (c : ℝ) : Vec3 := ⟨v.x * c, v.y * c, v.z * c⟩

/-- cglm `glm_vec3_norm`, the Euclidean norm. -/
noncomputable def glm_vec3_norm (v : Vec3) : ℝ :=
  Real.sqrt (v.x * v.x + v.y * v.y + v.z * v.z)

/-- cglm `glm_vec3_normalize`: the zero vector if the norm is zero, else
the vector scaled by the reciprocal of its norm. -/
noncomputable def glm_vec3_normalize (v : Vec3) : Vec3 :=
  let n := glm_vec3_norm v
  if n = 0 then ⟨0, 0, 0⟩ else glm_vec3_scale v (1 / n)

/-- cglm `glm_vec3_cross`. -/
def glm_vec3_cross (a b : Vec3) : Vec3 :=
  ⟨a.y * b.z - a.z * b.y, a.z * b.x - a.x * b.z, a.x * b.y - a.y * b.x⟩

/-- cglm `glm_vec3_crossn`: normalized cross product. -/
noncomputable def glm_vec3_crossn (a b : Vec3) : Vec3 :=
  glm_vec3_normalize (glm_vec3_cross a b)

/-- cglm `GLM_YUP`, the world up axis (0, 1, 0). -/
def GLM_YUP : Vec3 := ⟨0, 1, 0⟩

/-- `scene_update`: recompute `cam_dir` from yaw/pitch by the
spherical-to-Cartesian conversion and normalize it; if the panel is
focused, move `cam_pos` by `cam_speed` along the view direction for W/S
and along `glm_vec3_crossn(cam_dir, GLM_YUP)` for A/D; then reallocate the
scene texture (`glTexImage2D`) and resize the renderer
(`renderer_resize`) to `scene_size`; finally `renderer_render` draws into
the offscreen framebuffer (no modelled state). `selected_entity` is the
external global passed on to `renderer_render`. -/
noncomputable def scene_update (keys : Keys) (selected_entity : ℤ)
    (st : SceneState) : SceneState :=
  let cam_dir0 : Vec3 :=
    ⟨Real.cos (glm_rad (st.yaw : ℝ)) * Real.cos (glm_rad (st.pitch : ℝ)),
     Real.sin (glm_rad (st.pitch : ℝ)),
     Real.sin (glm_rad (st.yaw : ℝ)) * Real.cos (glm_rad (st.pitch : ℝ))⟩
  let cam_dir := glm_vec3_normalize cam_dir0
  let cam_pos :=
    if st.scene_focused then
      let p1 := if keys.w then
          glm_vec3_add st.cam_pos (glm_vec3_scale cam_dir cam_speed)
        else st.cam_pos
      let p2 := if keys.s then
          glm_vec3_sub p1 (glm_vec3_scale cam_dir cam_speed)
        else p1
      let p3 := if keys.a then
          glm_vec3_sub p2 (glm_vec3_scale (glm_vec3_crossn cam_dir GLM_YUP) cam_speed)
        else p2
      let p4 := if keys.d then
          glm_vec3_add p3 (glm_vec3_scale (glm_vec3_crossn cam_dir GLM_YUP) cam_speed)
        else p3
      p4
    else st.cam_pos
  { st with
    cam_dir := cam_dir
    cam_pos := cam_pos
    scene_tex_size := st.scene_size
    renderer_size := st.scene_size }

/-- Claim C1: after every call to `scene_processevent`, for every event and
every prior state, the pitch angle lies in the closed range [-89, 89]; in
particular no sequence of pointer-motion deltas can leave pitch outside
that range. -/
theorem c1_pitch_always_clamped (e : SDL_Event) (lmask : Bool)
    (st : SceneState) :
    -89 ≤ (scene_processevent e lmask st).pitch ∧
      (scene_processevent e lmask st).pitch ≤ 89 := by
  unfold scene_processevent
  dsimp only
  split_ifs <;> constructor <;> simp_all

/-- The spherical-to-Cartesian direction always has Euclidean norm 1. -/
lemma glm_vec3_norm_spherical (a b : ℝ) :
    glm_vec3_norm
      ⟨Real.cos a * Real.cos b, Real.sin b, Real.sin a * Real.cos b⟩ = 1 := by
  unfold glm_vec3_norm
  have h : Real.cos a * Real.cos b * (Real.cos a * Real.cos b) +
      Real.sin b * Real.sin b +
      Real.sin a * Real.cos b * (Real.sin a * Real.cos b) = 1 := by
    linear_combination (Real.cos b) ^ 2 * Real.sin_sq_add_cos_sq a +
      Real.sin_sq_add_cos_sq b
  rw [show (⟨Real.cos a * Real.cos b, Real.sin b,
      Real.sin a * Real.cos b⟩ : Vec3).x = Real.cos a * Real.cos b from rfl]
  simp only [h]
  exact Real.sqrt_one

/-- Normalizing a vector that already has norm 1 leaves it unchanged. -/
lemma glm_vec3_normalize_of_norm_one (v : Vec3) (h : glm_vec3_norm v = 1) :
    glm_vec3_normalize v = v := by
  unfold glm_vec3_normalize
  rw [h]
  simp [glm_vec3_scale]

/-- Claim C2: after every call to `scene_update`, the camera direction
vector equals the spherical-to-Cartesian conversion of yaw and pitch —
(cos yaw * cos pitch, sin pitch, sin yaw * cos pitch) with angles
converted from degrees to radians — and has unit length. -/
theorem c2_cam_dir_spherical_unit (keys : Keys) (sel : ℤ) (st : SceneState) :
    (scene_update keys sel st).cam_dir =
      ⟨Real.cos (glm_rad (st.yaw : ℝ)) * Real.cos (glm_rad (st.pitch : ℝ)),
       Real.sin (glm_rad (st.pitch : ℝ)),
       Real.sin (glm_rad (st.yaw : ℝ)) * Real.cos (glm_rad (st.pitch : ℝ))⟩ ∧
    glm_vec3_norm (scene_update keys sel st).cam_dir = 1 := by
  have hdir : (scene_update keys sel st).cam_dir =
      glm_vec3_normalize
        ⟨Real.cos (glm_rad (st.yaw : ℝ)) * Real.cos (glm_rad (st.pitch : ℝ)),
         Real.sin (glm_rad (st.pitch : ℝ)),
         Real.sin (glm_rad (st.yaw : ℝ)) * Real.cos (glm_rad (st.pitch : ℝ))⟩ := rfl
  rw [hdir, glm_vec3_normalize_of_norm_one _ (glm_vec3_norm_spherical _ _)]
  exact ⟨rfl, glm_vec3_norm_spherical _ _⟩

/-- Claim C3: for every keyboard state, if the panel is not focused then
`scene_update` leaves the camera position `cam_pos` unchanged. -/
theorem c3_unfocused_cam_pos_unchanged (keys : Keys) (sel : ℤ)
    (st : SceneState) (h : st.scene_focused = false) :
    (scene_update keys sel st).cam_pos = st.cam_pos := by
  unfold scene_update
  simp [h]

/-- Witness for C3 at a concrete unfocused state. -/
theorem c3_witness :
    initialSceneState.scene_focused = false ∧
      (scene_update ⟨true, true, true, true⟩ 0 initialSceneState).cam_pos =
        initialSceneState.cam_pos :=
  ⟨rfl, c3_unfocused_cam_pos_unchanged ⟨true, true, true, true⟩ 0
    initialSceneState rfl⟩

/-- Indicator of a held key, as a real scalar. -/
def bval (b : Bool) : ℝ := if b then 1 else 0

/-- Claim C5: if the panel is focused, `scene_update` moves the camera
position at the fixed speed 0.25 per update along the held movement axes:
W adds `cam_speed` times the view direction to `cam_pos`, S subtracts it,
and A/D subtract/add `cam_speed` times the normalized cross product of the
view direction with the world up axis. -/
theorem c5_focused_movement (keys : Keys) (sel : ℤ) (st : SceneState)
    (hf : st.scene_focused = true) :
    (scene_update keys sel st).cam_pos =
      glm_vec3_add st.cam_pos
        (glm_vec3_add
          (glm_vec3_scale (scene_update keys sel st).cam_dir
            ((bval keys.w - bval keys.s) * cam_speed))
          (glm_vec3_scale
            (glm_vec3_crossn (scene_update keys sel st).cam_dir GLM_YUP)
            ((bval keys.d - bval keys.a) * cam_speed))) ∧
    cam_speed = 0.25 := by
  obtain ⟨w, s, a, d⟩ := keys
  refine ⟨?_, rfl⟩
  unfold scene_update
  dsimp only
  rw [hf]
  cases w <;> cases s <;> cases a <;> cases d <;>
    refine Vec3.ext ?_ ?_ ?_ <;>
    simp [glm_vec3_add, glm_vec3_sub, glm_vec3_scale, bval] <;>
    ring

/-- Witness for C5: a focused state with only W held moves forward by
`cam_speed` times the view direction. -/
theorem c5_witness :
    ({ initialSceneState with scene_focused := true } : SceneState).scene_focused = true ∧
    (scene_update ⟨true, false, false, false⟩ 0
        { initialSceneState with scene_focused := true }).cam_pos =
      glm_vec3_add ({ initialSceneState with scene_focused := true } : SceneState).cam_pos
        (glm_vec3_add
          (glm_vec3_scale (scene_update ⟨true, false, false, false⟩ 0
              { initialSceneState with scene_focused := true }).cam_dir
            ((bval true - bval false) * cam_speed))
          (glm_vec3_scale
            (glm_vec3_crossn (scene_update ⟨true, false, false, false⟩ 0
                { initialSceneState with scene_focused := true }).cam_dir GLM_YUP)
            ((bval false - bval false) * cam_speed))) :=
  ⟨rfl, (c5_focused_movement ⟨true, false, false, false⟩ 0
    { initialSceneState with scene_focused := true } rfl).1⟩

/-- The strafe axis — the normalized cross product of any vector with the
world up axis — always has a zero vertical component. -/
lemma glm_vec3_crossn_yup_y (v : Vec3) : (glm_vec3_crossn v GLM_YUP).y = 0 := by
  unfold glm_vec3_crossn glm_vec3_normalize glm_vec3_cross GLM_YUP
  dsimp only
  split <;> simp [glm_vec3_scale]

/-- Claim C9: strafing never changes the camera's height: if the panel is
focused and W and S are not held, `scene_update` leaves the vertical (y)
component of `cam_pos` unchanged, because the strafe axis
`glm_vec3_crossn(cam_dir, GLM_YUP)` always has a zero y component. -/
theorem c9_strafe_preserves_height (keys : Keys) (sel : ℤ) (st : SceneState)
    (hf : st.scene_focused = true) (hw : keys.w = false)
    (hs : keys.s = false) :
    (scene_update keys sel st).cam_pos.y = st.cam_pos.y ∧
    ∀ v : Vec3, (glm_vec3_crossn v GLM_YUP).y = 0 := by
  refine ⟨?_, glm_vec3_crossn_yup_y⟩
  obtain ⟨w, s, a, d⟩ := keys
  dsimp only at hw hs
  subst hw hs
  unfold scene_update
  dsimp only
  rw [hf]
  cases a <;> cases d <;>
    simp [glm_vec3_add, glm_vec3_sub, glm_vec3_scale, glm_vec3_crossn_yup_y]

/-- Witness for C9: a focused state with only A and D held keeps the
camera height. -/
theorem c9_witness :
    ({ initialSceneState with scene_focused := true } : SceneState).scene_focused = true ∧
    (scene_update ⟨false, false, true, true⟩ 0
        { initialSceneState with scene_focused := true }).cam_pos.y =
      ({ initialSceneState with scene_focused := true } : SceneState).cam_pos.y :=
  ⟨rfl, (c9_strafe_preserves_height ⟨false, false, true, true⟩ 0
    { initialSceneState with scene_focused := true } rfl rfl rfl).1⟩

/-- A mouse-motion event with `xrel = 0`, `yrel = 10`. -/
def motionEvent10 : SDL_Event := ⟨SDL_EventType.SDL_MOUSEMOTION, 0, 10⟩

/-- The initial globals with the panel focused. -/
noncomputable def focusedInitial : SceneState :=
  { initialSceneState with scene_focused := true }

/-- Counterexample to C4 as stated: with focus and the left button held, a
motion event with `yrel = 10` yields `pitch = -1`, not
`pitch + 10 * 0.1 = 1` — the code subtracts the scaled vertical delta
(`pitch -= yrel * 0.1`) rather than adding it. -/
theorem c4_counterexample :
    mouselook_active motionEvent10 true focusedInitial ∧
      (scene_processevent motionEvent10 true focusedInitial).pitch ≠
        focusedInitial.pitch + ((motionEvent10.yrel : ℚ)) * (1 / 10) := by
  constructor
  · exact ⟨rfl, rfl, rfl⟩
  · have hm : mouselook_active motionEvent10 true focusedInitial :=
      ⟨rfl, rfl, rfl⟩
    unfold scene_processevent
    dsimp only
    simp only [hm, if_true]
    norm_num [focusedInitial, initialSceneState, motionEvent10]

/-- Amended C4: for every mouse-motion event processed while the panel has
focus and the left button is held, yaw is accumulated by the horizontal
delta scaled by 0.1, and pitch is accumulated by the NEGATED vertical
delta scaled by 0.1 and then clamped to [-89, 89]; events of other types,
or without focus, or without the button held, change neither yaw nor
pitch, provided pitch already lies in [-89, 89] (which holds in every
reachable state, by C1 and the initial value 0). -/
theorem c4_mouselook_accumulation (e : SDL_Event) (lmask : Bool)
    (st : SceneState) (h1 : -89 ≤ st.pitch) (h2 : st.pitch ≤ 89) :
    (mouselook_active e lmask st →
      (scene_processevent e lmask st).yaw =
          st.yaw + (e.xrel : ℚ) * (1 / 10) ∧
        (scene_processevent e lmask st).pitch =
          max (-89) (min 89 (st.pitch - (e.yrel : ℚ) * (1 / 10)))) ∧
    (¬ mouselook_active e lmask st →
      (scene_processevent e lmask st).yaw = st.yaw ∧
        (scene_processevent e lmask st).pitch = st.pitch) := by
  constructor
  · intro h
    unfold scene_processevent
    dsimp only
    rw [if_pos h, if_pos h]
    refine ⟨rfl, ?_⟩
    simp only [max_def, min_def]
    split_ifs <;> first | rfl | linarith
  · intro h
    unfold scene_processevent
    dsimp only
    rw [if_neg h, if_neg h]
    refine ⟨rfl, ?_⟩
    split_ifs <;> first | rfl | linarith

/-- Witness for the amended C4 at the concrete event `motionEvent10` from
the focused initial state. -/
theorem c4_witness :
    ((-89 : ℚ) ≤ focusedInitial.pitch ∧ focusedInitial.pitch ≤ 89) ∧
    ((mouselook_active motionEvent10 true focusedInitial →
      (scene_processevent motionEvent10 true focusedInitial).yaw =
          focusedInitial.yaw + ((motionEvent10.xrel : ℚ)) * (1 / 10) ∧
        (scene_processevent motionEvent10 true focusedInitial).pitch =
          max (-89) (min 89 (focusedInitial.pitch -
            ((motionEvent10.yrel : ℚ)) * (1 / 10)))) ∧
    (¬ mouselook_active motionEvent10 true focusedInitial →
      (scene_processevent motionEvent10 true focusedInitial).yaw =
          focusedInitial.yaw ∧
        (scene_processevent motionEvent10 true focusedInitial).pitch =
          focusedInitial.pitch)) :=
  ⟨⟨by norm_num [focusedInitial, initialSceneState],
      by norm_num [focusedInitial, initialSceneState]⟩,
    c4_mouselook_accumulation motionEvent10 true focusedInitial
      (by norm_num [focusedInitial, initialSceneState])
      (by norm_num [focusedInitial, initialSceneState])⟩

/-- An integer that fits in SDL's `Sint32`, the type of the relative
mouse-motion fields `xrel`/`yrel`. -/
def sint32_range (n : ℤ) : Prop := -(2 ^ 31) ≤ n ∧ n < 2 ^ 31

/-- A sequence of events fed to `scene_processevent` in order, with the
polled left-button state `lmask` held fixed across the sequence. -/
def scene_processevents (evs : List SDL_Event) (lmask : Bool)
    (st : SceneState) : SceneState :=
  evs.foldl (fun acc e => scene_processevent e lmask acc) st

lemma scene_processevents_cons (e : SDL_Event) (evs : List SDL_Event)
    (lmask : Bool) (st : SceneState) :
    scene_processevents (e :: evs) lmask st =
      scene_processevents evs lmask (scene_processevent e lmask st) := rfl

/-- On an accumulating event the new yaw is exactly the old yaw plus 0.1
times the horizontal delta; nothing clamps or wraps it. -/
lemma scene_processevent_yaw_accum (e : SDL_Event) (lmask : Bool)
    (st : SceneState) (h : mouselook_active e lmask st) :
    (scene_processevent e lmask st).yaw = st.yaw + (e.xrel : ℚ) * (1 / 10) := by
  unfold scene_processevent
  dsimp only
  rw [if_pos h]

/-- Processing `k` focused left-button motion events of horizontal delta
10 raises yaw by exactly `k`. -/
lemma scene_processevents_replicate_yaw (k : ℕ) (st : SceneState)
    (hf : st.scene_focused = true) :
    (scene_processevents
        (List.replicate k ⟨SDL_EventType.SDL_MOUSEMOTION, 10, 0⟩) true
        st).yaw = st.yaw + k := by
  induction k generalizing st with
  | zero => simp [scene_processevents]
  | succ n ih =>
    have hfoc : (scene_processevent ⟨SDL_EventType.SDL_MOUSEMOTION, 10, 0⟩
        true st).scene_focused = true := hf
    have hstep : (scene_processevent ⟨SDL_EventType.SDL_MOUSEMOTION, 10, 0⟩
        true st).yaw = st.yaw + 1 := by
      rw [scene_processevent_yaw_accum _ _ _ ⟨rfl, hf, rfl⟩]
      norm_num
    rw [List.replicate_succ, scene_processevents_cons, ih _ hfoc, hstep]
    push_cast
    ring

/-- Claim C10: yaw is unbounded: `scene_processevent` applies no clamping
or wrapping to yaw — on each accumulating event the new yaw equals exactly
the old yaw plus 0.1 times the horizontal delta — and from every focused
state, for every bound B there is a sequence of focused left-button
mouse-motion events, each with `Sint32`-representable deltas, after which
|yaw| exceeds B. -/
theorem c10_yaw_unbounded :
    (∀ (e : SDL_Event) (lmask : Bool) (st : SceneState),
        mouselook_active e lmask st →
          (scene_processevent e lmask st).yaw =
            st.yaw + (e.xrel : ℚ) * (1 / 10)) ∧
    (∀ (B : ℚ) (st : SceneState), st.scene_focused = true →
        ∃ evs : List SDL_Event,
          (∀ e ∈ evs, e.type = SDL_EventType.SDL_MOUSEMOTION ∧
            sint32_range e.xrel ∧ sint32_range e.yrel) ∧
            B < |(scene_processevents evs true st).yaw|) := by
  refine ⟨scene_processevent_yaw_accum, ?_⟩
  intro B st hf
  refine ⟨List.replicate (⌈B - st.yaw⌉.toNat + 1)
    ⟨SDL_EventType.SDL_MOUSEMOTION, 10, 0⟩, ?_, ?_⟩
  · intro e he
    rw [List.eq_of_mem_replicate he]
    exact ⟨rfl, by norm_num [sint32_range], by norm_num [sint32_range]⟩
  · rw [scene_processevents_replicate_yaw _ st hf]
    have h1 : B - st.yaw ≤ ((⌈B - st.yaw⌉ : ℤ) : ℚ) := Int.le_ceil _
    have h2 : ((⌈B - st.yaw⌉ : ℤ) : ℚ) ≤ ((⌈B - st.yaw⌉.toNat : ℕ) : ℚ) := by
      exact_mod_cast Int.self_le_toNat _
    have h3 : st.yaw + ((⌈B - st.yaw⌉.toNat + 1 : ℕ) : ℚ) ≤
        |st.yaw + ((⌈B - st.yaw⌉.toNat + 1 : ℕ) : ℚ)| := le_abs_self _
    push_cast at h3 ⊢
    linarith

/-- Witness for C10: the exact accumulation at `motionEvent10`, and a
concrete bound 1000 exceeded from the focused initial state by a sequence
of representable events. -/
theorem c10_witness :
    ((scene_processevent motionEvent10 true focusedInitial).yaw =
        focusedInitial.yaw + ((motionEvent10.xrel : ℚ)) * (1 / 10)) ∧
    (∃ evs : List SDL_Event,
        (∀ e ∈ evs, e.type = SDL_EventType.SDL_MOUSEMOTION ∧
          sint32_range e.xrel ∧ sint32_range e.yrel) ∧
          (1000 : ℚ) < |(scene_processevents evs true focusedInitial).yaw|) :=
  ⟨c10_yaw_unbounded.1 motionEvent10 true focusedInitial ⟨rfl, rfl, rfl⟩,
    c10_yaw_unbounded.2 1000 focusedInitial rfl⟩

/-- An engine entity as read by the overlay code: `e->name` and `e->id`.
The lookup `get_entity` lives outside the excerpt and is passed in. -/
structure entity_t where
  name : String
  id : ℤ

/-- The text overlay drawn on the scene panel by `scene_render`. -/
inductive SceneOverlay
  | entityText (name : String) (id : ℤ)
  | noEntitySelected
deriving DecidableEq

/-- `scene_init`: generate the framebuffer and texture and allocate the
texture storage (`glTexImage2D`) with the current `scene_size`; the GL
handles themselves are not modelled, only the allocated dimensions. -/
def scene_init (st : SceneState) : SceneState :=
  { st with scene_tex_size := st.scene_size }

/-- `scene_render`: when `scene_open` and `igBegin` succeeds, record the
window size into `scene_size` and the focus flag into `scene_focused`,
draw the scene texture image, and overlay either the selected entity's
name/id (`selected_entity >= 0`) or the "No entity selected." text.
`begin_ok` is the result of `igBegin`; the returned option is the overlay
drawn, `none` when the window body was skipped. -/
def scene_render (scene_open : Bool) (begin_ok : Bool)
    (window_size : ImVec2) (focused : Bool) (selected_entity : ℤ)
    (get_entity : ℤ → entity_t) (st : SceneState) :
    SceneState × Option SceneOverlay :=
  if scene_open then
    if begin_ok then
      let st1 :=
        { st with scene_size := window_size, scene_focused := focused }
      if selected_entity ≥ 0 then
        let e := get_entity selected_entity
        (st1, some (SceneOverlay.entityText e.name e.id))
      else
        (st1, some SceneOverlay.noEntitySelected)
    else (st, none)
  else (st, none)

/-- Claim C6: every `scene_update` reallocates the offscreen texture and
resizes the renderer to the current panel size, and `scene_render` (when
the window is drawn) records the window size into `scene_size`; hence
after a panel resize the offscreen target's dimensions equal the new
panel size at the next update, before its render. -/
theorem c6_offscreen_tracks_panel_size (keys : Keys) (sel : ℤ)
    (so bo : Bool) (ws : ImVec2) (f : Bool) (sel2 : ℤ)
    (lookup : ℤ → entity_t) (st : SceneState)
    (hso : so = true) (hbo : bo = true) :
    (∀ st2 : SceneState,
        (scene_update keys sel st2).scene_tex_size = st2.scene_size ∧
          (scene_update keys sel st2).renderer_size = st2.scene_size) ∧
    (scene_render so bo ws f sel2 lookup st).1.scene_size = ws ∧
    (scene_update keys sel
        (scene_render so bo ws f sel2 lookup st).1).scene_tex_size = ws ∧
    (scene_update keys sel
        (scene_render so bo ws f sel2 lookup st).1).renderer_size = ws := by
  subst hso hbo
  refine ⟨fun st2 => ⟨rfl, rfl⟩, ?_⟩
  unfold scene_render
  dsimp only
  split_ifs <;> first | exact ⟨rfl, rfl, rfl⟩ | simp_all

/-- Witness for C6 at a concrete post-render state of size 640 × 480. -/
theorem c6_witness :
    (scene_render true true ⟨640, 480⟩ false (-1) (fun i => ⟨"e", i⟩)
        initialSceneState).1.scene_size = ⟨640, 480⟩ ∧
    (scene_update ⟨false, false, false, false⟩ 0
        (scene_render true true ⟨640, 480⟩ false (-1) (fun i => ⟨"e", i⟩)
          initialSceneState).1).scene_tex_size = ⟨640, 480⟩ ∧
    (scene_update ⟨false, false, false, false⟩ 0
        (scene_render true true ⟨640, 480⟩ false (-1) (fun i => ⟨"e", i⟩)
          initialSceneState).1).renderer_size = ⟨640, 480⟩ :=
  (c6_offscreen_tracks_panel_size ⟨false, false, false, false⟩ 0 true true
    ⟨640, 480⟩ false (-1) (fun i => ⟨"e", i⟩) initialSceneState rfl rfl).2

/-- Claim C7: `scene_init` allocates the offscreen render target sized to
the current panel dimensions, and at initialization time those are
{0, 0}, since no layout pass has yet set the panel size. -/
theorem c7_init_allocates_at_panel_size :
    (∀ st : SceneState, (scene_init st).scene_tex_size = st.scene_size) ∧
    initialSceneState.scene_size = ⟨0, 0⟩ ∧
    (scene_init initialSceneState).scene_tex_size = ⟨0, 0⟩ :=
  ⟨fun _ => rfl, rfl, rfl⟩

/-- Claim C8: in `scene_render`, when the window is drawn, exactly one of
the two overlays appears: the selected entity's name and id when
`selected_entity >= 0`, and the "No entity selected." message otherwise. -/
theorem c8_overlay_selection (so bo : Bool) (ws : ImVec2) (f : Bool)
    (sel : ℤ) (lookup : ℤ → entity_t) (st : SceneState)
    (hso : so = true) (hbo : bo = true) :
    (scene_render so bo ws f sel lookup st).2 =
      some (if sel ≥ 0 then
          SceneOverlay.entityText (lookup sel).name (lookup sel).id
        else SceneOverlay.noEntitySelected) := by
  subst hso hbo
  unfold scene_render
  dsimp only
  split_ifs <;> first | rfl | simp_all

/-- Witness for C8: with entity 3 selected the overlay shows its name and
id. -/
theorem c8_witness :
    (scene_render true true ⟨640, 480⟩ false 3 (fun i => ⟨"e", i⟩)
        initialSceneState).2 =
      some (if (3 : ℤ) ≥ 0 then
          SceneOverlay.entityText ((fun i : ℤ => (⟨"e", i⟩ : entity_t)) 3).name
            ((fun i : ℤ => (⟨"e", i⟩ : entity_t)) 3).id
        else SceneOverlay.noEntitySelected) :=
  c8_overlay_selection true true ⟨640, 480⟩ false 3 (fun i => ⟨"e", i⟩)
    initialSceneState rfl rfl
